import Mathlib

/-!
Verification of the AES67 sender orchestration script (ptp-sender.py).

The development shallowly embeds the script:
* the pure channel partitioner `calculate_streams` (source lines 103-131) is
  translated to a Lean function over `Int` (Python integers are unbounded,
  Python `//` is floor division, modelled by `Int.fdiv`);
* Python string primitives used by the partitioner (`str.split(".")`,
  `".".join`, `int(...)`, `str(...)`) are given executable models;
* the stateful orchestration (`init_ptp_clock`, `start`, `stop`,
  `on_bus_message`, `load_config`, lines 43-257) is embedded as explicit
  state passing over `SenderState` together with a trace of externally
  visible actions (`Act`), with the outcomes of the external GStreamer
  calls supplied by an environment `Env`.
-/

/-- Tail of Python exceptions that the embedded code can raise.
`valueError` covers both `int(...)` parse failures and the explicit
`ValueError` raised by `load_config`; `indexError` is raised by
`addr_parts[3]` when the split produced fewer than four parts;
`zeroDivisionError` is raised by `//` with a zero divisor.
`configurationError` is the error class named by the specification; the
script never raises it, and it is included so that claims that mention it
can be stated and settled. -/
inductive PyError where
  | valueError
  | indexError
  | zeroDivisionError
  | configurationError
  deriving DecidableEq, Repr

/-- Model of Python `str.split(".")` working over the character list:
splits at every dot, keeping empty segments, so `"a..b"` gives
`["a", "", "b"]` and `""` gives `[""]`, matching Python. -/
def split_dot_aux : List Char → List Char → List String
  | [], acc => [String.mk acc.reverse]
  | c :: cs, acc =>
    if c = '.' then String.mk acc.reverse :: split_dot_aux cs []
    else split_dot_aux cs (c :: acc)

/-- Model of Python `base_multicast.split(".")` (source line 119). -/
def split_dot (s : String) : List String :=
  split_dot_aux s.data []

/-- Model of Python `".".join(addr_parts)` (source line 121). -/
def join_dot : List String → String
  | [] => ""
  | [s] => s
  | s :: rest => s ++ "." ++ join_dot rest

/-- Decimal digit value of a character, if it is a digit. -/
def digit_val (c : Char) : Option Nat :=
  if '0' ≤ c ∧ c ≤ '9' then some (c.toNat - '0'.toNat) else none

/-- Accumulate a decimal number from a list of characters; `none` as soon
as a non-digit appears. -/
def digits_to_nat (acc : Nat) : List Char → Option Nat
  | [] => some acc
  | c :: cs =>
    match digit_val c with
    | some d => digits_to_nat (acc * 10 + d) cs
    | none => none

/-- Model of Python `int(s)` on the strings this program feeds it: an
optional sign followed by at least one decimal digit; anything else is a
`ValueError` (modelled as `none`).  Python additionally strips whitespace
and allows underscores between digits; those inputs do not occur in
dotted-quad octets and are not modelled. -/
def py_int (s : String) : Option Int :=
  match s.data with
  | [] => none
  | '-' :: rest =>
    if rest = [] then none else (digits_to_nat 0 rest).map (fun n => -(n : Int))
  | '+' :: rest =>
    if rest = [] then none else (digits_to_nat 0 rest).map (fun n => (n : Int))
  | cs => (digits_to_nat 0 cs).map (fun n => (n : Int))

/-- One stream configuration dictionary as appended by `calculate_streams`
(source lines 123-129).  Field names follow the Python dict keys. -/
structure StreamDesc where
  index : Nat
  multicast : String
  port : Int
  channels : Int
  start_channel : Int
  deriving DecidableEq, Repr

/-- The sender configuration (source lines 43-58 and the keys read
throughout the script).  JSON parsing is external; a value of this type
models an already-parsed configuration object with all keys present. -/
structure Config where
  deviceMode : String
  ptpDomain : Int
  channelCount : Int
  channelsPerReceiver : Int
  baseMulticastAddress : String
  rtpDestinationPort : Int
  samplingRate : Int
  jackClientName : String
  deriving DecidableEq, Repr

/-- Source lines 118-121: split the base address on dots, read part 3 with
`int`, add the stream index, write it back, rejoin.  Reading
`addr_parts[3]` raises `IndexError` when the split has fewer than four
parts; `int` raises `ValueError` on a non-numeric part. -/
def bump_addr (base : String) (i : Nat) : Except PyError String :=
  let addr_parts := split_dot base
  if h : 3 < addr_parts.length then
    match py_int (addr_parts.get ⟨3, h⟩) with
    | some v => .ok (join_dot (addr_parts.set 3 (toString (v + (i : Int)))))
    | none => .error .valueError
  else
    .error .indexError

/-- Loop body of `calculate_streams` for one index `i`
(source lines 113-129). -/
def mk_stream (channel_count channels_per_receiver : Int) (base_multicast : String)
    (base_port : Int) (i : Nat) : Except PyError StreamDesc := do
  let start_channel : Int := (i : Int) * channels_per_receiver
  let end_channel : Int := min (start_channel + channels_per_receiver) channel_count
  let stream_channels : Int := end_channel - start_channel
  let stream_address ← bump_addr base_multicast i
  pure {
    index := i
    multicast := stream_address
    port := base_port + (i : Int)
    channels := stream_channels
    start_channel := start_channel + 1 }

/-- The `for i in range(num_streams)` loop of `calculate_streams`,
accumulating the appended stream dictionaries in order and aborting at the
first raised exception. -/
def streams_loop (channel_count channels_per_receiver : Int) (base_multicast : String)
    (base_port : Int) : List Nat → Except PyError (List StreamDesc)
  | [] => .ok []
  | i :: rest => do
    let st ← mk_stream channel_count channels_per_receiver base_multicast base_port i
    let tail ← streams_loop channel_count channels_per_receiver base_multicast base_port rest
    pure (st :: tail)

/-- Source lines 103-131, `calculate_streams`: the channel partitioner.
`num_streams = (channel_count + channels_per_receiver - 1) // channels_per_receiver`
uses Python floor division (`Int.fdiv`), which raises `ZeroDivisionError`
when `channels_per_receiver` is zero; `range` of a non-positive number is
empty (`Int.toNat` sends non-positive integers to `0`).  The function
performs no validation of its inputs. -/
def calculate_streams (channel_count channels_per_receiver : Int)
    (base_multicast : String) (base_port : Int) : Except PyError (List StreamDesc) :=
  if channels_per_receiver = 0 then
    .error .zeroDivisionError
  else
    let num_streams := Int.fdiv (channel_count + channels_per_receiver - 1) channels_per_receiver
    streams_loop channel_count channels_per_receiver base_multicast base_port
      (List.range num_streams.toNat)

/-- `self.calculate_streams()` as invoked on the object: the four values are
read from the configuration (source lines 105-108). -/
def calculate_streams_of (cfg : Config) : Except PyError (List StreamDesc) :=
  calculate_streams cfg.channelCount cfg.channelsPerReceiver
    cfg.baseMulticastAddress cfg.rtpDestinationPort

/-- Closed form of the descriptor appended by `calculate_streams` for loop
index `i`, valid when part 3 of the split base address parses to `base3`;
used to state and prove the partitioning properties. -/
def stream_desc (channel_count channels_per_receiver : Int) (base_multicast : String)
    (base_port : Int) (base3 : Int) (i : Nat) : StreamDesc :=
  { index := i
    multicast := join_dot ((split_dot base_multicast).set 3 (toString (base3 + (i : Int))))
    port := base_port + (i : Int)
    channels := min ((i : Int) * channels_per_receiver + channels_per_receiver) channel_count
      - (i : Int) * channels_per_receiver
    start_channel := (i : Int) * channels_per_receiver + 1 }

deriving instance DecidableEq for Except

/-- Externally visible effects of the orchestrator, recorded as a trace:
`ptp_init` is the `GstNet.ptp_init` call, `ptp_deinit` the
`GstNet.ptp_deinit` call, `pipeline_set_null i` / `pipeline_set_playing i`
are `set_state` calls on the pipeline of stream `i`, `main_loop_quit` is
`self.main_loop.quit()`, and `exit c` is `sys.exit(c)` (or the interpreter
terminating with code 1 on an uncaught exception). -/
inductive Act where
  | ptp_init
  | ptp_deinit
  | pipeline_set_null (i : Nat)
  | pipeline_set_playing (i : Nat)
  | main_loop_quit
  | exit (code : Nat)
  deriving DecidableEq, Repr

/-- Outcomes of the external GStreamer calls, fixed up front so the
orchestration logic is a function of them: whether `GstNet.ptp_init`
succeeds, whether `GstNet.PtpClock.new` returns a clock, whether
`wait_for_sync` returns within the timeout, whether `Gst.parse_launch`
returns a pipeline for stream `i`, and whether `set_state(PLAYING)` for
stream `i` returns something other than `FAILURE`. -/
structure Env where
  ptp_init_ok : Bool
  clock_create_ok : Bool
  wait_sync_ok : Bool
  parse_launch_ok : Nat → Bool
  start_ok : Nat → Bool

/-- The mutable state of a `GstreamerPtpSender` object that the modelled
methods read and write: `pipelines` is `self.pipelines` (each pipeline
recorded by its stream index, appended in creation order),
`main_loop_running` is `self.main_loop.is_running()` (with a missing main
loop modelled as not running), and `ptp_clock` is the truthiness of
`self.ptp_clock`. -/
structure SenderState where
  pipelines : List Nat
  main_loop_running : Bool
  ptp_clock : Bool
  deriving DecidableEq, Repr

/-- Source lines 60-94, `init_ptp_clock`: returns `False` if the PTP
subsystem cannot be initialized or no clock can be created (storing the
clock object before checking it), and returns `True` in both the
synchronized and the sync-timeout branches of `wait_for_sync` (line 94:
"continue anyway").  The trace records the `ptp_init` attempt. -/
def init_ptp_clock (env : Env) (s : SenderState) : SenderState × Bool × List Act :=
  if env.ptp_init_ok = false then
    (s, false, [Act.ptp_init])
  else
    let s1 : SenderState := { s with ptp_clock := env.clock_create_ok }
    if env.clock_create_ok = false then
      (s1, false, [Act.ptp_init])
    else if env.wait_sync_ok then
      (s1, true, [Act.ptp_init])
    else
      (s1, true, [Act.ptp_init])

/-- Source lines 240-257, `stop`: sets every pipeline in `self.pipelines`
to `NULL` in order, quits the main loop if it is running, calls
`GstNet.ptp_deinit()` if `self.ptp_clock` is set, and finally calls
`sys.exit(0)`.  Note that the method neither clears `self.pipelines` nor
resets `self.ptp_clock`, and no guard flag of any kind is consulted or
set. -/
def stop (s : SenderState) : SenderState × List Act :=
  (⟨s.pipelines, false, s.ptp_clock⟩,
    s.pipelines.map Act.pipeline_set_null
      ++ (if s.main_loop_running then [Act.main_loop_quit] else [])
      ++ (if s.ptp_clock then [Act.ptp_deinit] else [])
      ++ [Act.exit 0])

/-- The GStreamer bus message kinds handled by `on_bus_message`. -/
inductive MessageType where
  | error
  | eos
  | warning
  | state_changed
  deriving DecidableEq, Repr

/-- Source lines 175-197, `on_bus_message`: an `ERROR` message logs and
calls `self.stop()`; an `EOS` message logs and calls `self.stop()`;
`WARNING` and `STATE_CHANGED` messages only log. -/
def on_bus_message (s : SenderState) (t : MessageType) : SenderState × List Act :=
  match t with
  | .error => stop s
  | .eos => stop s
  | .warning => (s, [])
  | .state_changed => (s, [])

/-- Source lines 133-173, `create_pipeline`: builds the pipeline for one
stream with `Gst.parse_launch`; a falsy result raises `RuntimeError`.
Only the success or failure of the external parse matters to the
orchestration, so the pipeline is represented by its stream index. -/
def create_pipeline (env : Env) (i : Nat) : Option Nat :=
  if env.parse_launch_ok i then some i else none

/-- The `for stream in streams` loop of `start` (source lines 212-221):
create the pipeline, append it to `self.pipelines`, set it `PLAYING`; on a
`FAILURE` return, call `sys.exit(1)` directly (no cleanup).  An uncaught
`RuntimeError` from `create_pipeline` likewise terminates the interpreter
with exit code 1.  The returned flag tells whether every stream was
started. -/
def run_streams (env : Env) : List StreamDesc → SenderState → SenderState × List Act × Bool
  | [], s => (s, [], true)
  | st :: rest, s =>
    match create_pipeline env st.index with
    | none => (s, [Act.exit 1], false)
    | some p =>
      let s1 : SenderState := { s with pipelines := s.pipelines ++ [p] }
      if env.start_ok st.index then
        let r := run_streams env rest s1
        (r.1, Act.pipeline_set_playing st.index :: r.2.1, r.2.2)
      else
        (s1, [Act.pipeline_set_playing st.index, Act.exit 1], false)

/-- Source lines 199-238, `start`: initialize the PTP clock, `sys.exit(1)`
if that fails; compute the stream configurations (an exception escaping
`calculate_streams` terminates the interpreter with exit code 1); create
and start the pipelines in order; when all are running, create and run the
main loop (signal handlers map SIGINT and SIGTERM to `self.stop()`). -/
def start (cfg : Config) (env : Env) (s : SenderState) : SenderState × List Act :=
  let r1 := init_ptp_clock env s
  if r1.2.1 = false then (r1.1, r1.2.2 ++ [Act.exit 1])
  else
    match calculate_streams_of cfg with
    | .error _ => (r1.1, r1.2.2 ++ [Act.exit 1])
    | .ok streams =>
      let r2 := run_streams env streams r1.1
      if r2.2.2 = true then ({ r2.1 with main_loop_running := true }, r1.2.2 ++ r2.2.1)
      else (r2.1, r1.2.2 ++ r2.2.1)

/-- Source lines 43-58, `load_config` on an already-parsed configuration
object: raises `ValueError("Configuration must be for sender mode")` when
`deviceMode` is not `"sender"`; that `ValueError` is not caught by the
`except` clauses (which catch only `FileNotFoundError` and
`json.JSONDecodeError`). -/
def load_config (raw : Config) : Except PyError Config :=
  if raw.deviceMode = "sender" then .ok raw else .error .valueError

/-- Source lines 260-286 and the constructor (lines 29-41): `main` builds
the sender object, whose constructor calls `load_config`; the uncaught
`ValueError` terminates the interpreter with exit code 1 before `start` is
ever reached, so in that case no clock initialization is attempted.
Otherwise `sender.start()` runs from the initial object state. -/
def run_main (raw : Config) (env : Env) : List Act :=
  match load_config raw with
  | .error _ => [Act.exit 1]
  | .ok cfg => (start cfg env ⟨[], false, false⟩).2

/-- Actions that stop a pipeline or release the clock: the constituents of
the shutdown cascade. -/
def is_cleanup : Act → Bool
  | .pipeline_set_null _ => true
  | .ptp_deinit => true
  | _ => false

/-- Process-exit actions. -/
def is_exit : Act → Bool
  | .exit _ => true
  | _ => false

/-- If the base address has at least four dot-separated parts and part 3
parses, `bump_addr` succeeds and produces the rejoined address with part 3
replaced by `base3 + i`. -/
lemma bump_addr_ok (bm : String) (base3 : Int) (i : Nat)
    (hlen : 3 < (split_dot bm).length)
    (hp : py_int ((split_dot bm).get ⟨3, hlen⟩) = some base3) :
    bump_addr bm i = .ok (join_dot ((split_dot bm).set 3 (toString (base3 + (i : Int))))) := by
  simp only [bump_addr]
  rw [dif_pos hlen, hp]

lemma mk_stream_ok (cc cpr : Int) (bm : String) (bp : Int) (base3 : Int) (i : Nat)
    (hlen : 3 < (split_dot bm).length)
    (hp : py_int ((split_dot bm).get ⟨3, hlen⟩) = some base3) :
    mk_stream cc cpr bm bp i = .ok (stream_desc cc cpr bm bp base3 i) := by
  simp only [mk_stream, bump_addr_ok bm base3 i hlen hp]
  rfl

lemma streams_loop_ok (cc cpr : Int) (bm : String) (bp : Int) (base3 : Int)
    (hlen : 3 < (split_dot bm).length)
    (hp : py_int ((split_dot bm).get ⟨3, hlen⟩) = some base3) (l : List Nat) :
    streams_loop cc cpr bm bp l = .ok (l.map (stream_desc cc cpr bm bp base3)) := by
  induction l with
  | nil => rfl
  | cons i rest ih =>
    simp only [streams_loop, mk_stream_ok cc cpr bm bp base3 i hlen hp, ih, List.map]
    rfl

/-- Evaluation of the partitioner under a well-formed base address:
the result is the descriptor for every index below
`(cc + cpr - 1) // cpr` (Python floor division). -/
lemma calculate_streams_eq (cc cpr : Int) (bm : String) (bp : Int) (base3 : Int)
    (hcpr : cpr ≠ 0)
    (hlen : 3 < (split_dot bm).length)
    (hp : py_int ((split_dot bm).get ⟨3, hlen⟩) = some base3) :
    calculate_streams cc cpr bm bp
      = .ok ((List.range ((Int.fdiv (cc + cpr - 1) cpr).toNat)).map
          (stream_desc cc cpr bm bp base3)) := by
  simp only [calculate_streams, if_neg hcpr]
  exact streams_loop_ok cc cpr bm bp base3 hlen hp _

/-- The stream count `n = (cc + cpr - 1) // cpr` satisfies
`cc ≤ n * cpr ≤ cc + cpr - 1` for positive `cpr`: it is the ceiling of
`cc / cpr`. -/
lemma num_streams_bounds (cc cpr : Int) (hcpr : 0 < cpr) :
    cc ≤ Int.fdiv (cc + cpr - 1) cpr * cpr ∧
    Int.fdiv (cc + cpr - 1) cpr * cpr ≤ cc + cpr - 1 := by
  rw [Int.fdiv_eq_ediv _ (le_of_lt hcpr)]
  constructor
  · have h2 := Int.lt_ediv_add_one_mul_self (cc + cpr - 1) hcpr
    rw [add_mul, one_mul] at h2
    linarith
  · exact Int.ediv_mul_le _ (ne_of_gt hcpr)

/-- Every loop index below the stream count starts strictly inside the
channel range. -/
lemma index_mul_lt (cc cpr : Int) (hcpr : 0 < cpr) (i : Nat)
    (hi : (i : Int) < Int.fdiv (cc + cpr - 1) cpr) :
    (i : Int) * cpr < cc := by
  obtain ⟨hb1, hb2⟩ := num_streams_bounds cc cpr hcpr
  have h1 : (i : Int) ≤ Int.fdiv (cc + cpr - 1) cpr - 1 := by omega
  have h2 : (i : Int) * cpr ≤ (Int.fdiv (cc + cpr - 1) cpr - 1) * cpr :=
    mul_le_mul_of_nonneg_right h1 (le_of_lt hcpr)
  have h3 : (Int.fdiv (cc + cpr - 1) cpr - 1) * cpr
      = Int.fdiv (cc + cpr - 1) cpr * cpr - cpr := by ring
  linarith

lemma sum_map_sub_telescope (F : Nat → Int) (n : Nat) :
    ((List.range n).map (fun i => F (i + 1) - F i)).sum = F n - F 0 := by
  induction n with
  | zero => simp
  | succ m ih =>
    rw [List.range_succ, List.map_append, List.sum_append]
    simp only [List.map_cons, List.map_nil, List.sum_cons, List.sum_nil, ih]
    omega

lemma except_bind_error {α β γ : Type} (e : α) (f : β → Except α γ) :
    ((Except.error e : Except α β) >>= f) = Except.error e := rfl

lemma except_bind_ok {α β γ : Type} (b : β) (f : β → Except α γ) :
    ((Except.ok b : Except α β) >>= f) = f b := rfl

lemma except_map_error {α β γ : Type} (e : α) (f : β → γ) :
    (f <$> (Except.error e : Except α β)) = Except.error e := rfl

lemma except_map_ok {α β γ : Type} (b : β) (f : β → γ) :
    (f <$> (Except.ok b : Except α β)) = Except.ok (f b) := rfl

lemma except_pure {α β : Type} (b : β) :
    (pure b : Except α β) = Except.ok b := rfl

lemma bump_addr_not_config (bm : String) (i : Nat) :
    bump_addr bm i ≠ .error .configurationError := by
  simp only [bump_addr]
  split
  · split <;> simp
  · simp

lemma mk_stream_not_config (cc cpr : Int) (bm : String) (bp : Int) (i : Nat) :
    mk_stream cc cpr bm bp i ≠ .error .configurationError := by
  have hb := bump_addr_not_config bm i
  simp only [mk_stream]
  cases hba : bump_addr bm i with
  | error e =>
    rw [hba] at hb
    rw [except_bind_error]
    simp only [ne_eq, Except.error.injEq] at hb ⊢
    exact hb
  | ok a => rw [except_bind_ok, except_pure]; simp

lemma streams_loop_not_config (cc cpr : Int) (bm : String) (bp : Int) (l : List Nat) :
    streams_loop cc cpr bm bp l ≠ .error .configurationError := by
  induction l with
  | nil => simp [streams_loop]
  | cons i rest ih =>
    simp only [streams_loop]
    cases hm : mk_stream cc cpr bm bp i with
    | error e =>
      have hne := mk_stream_not_config cc cpr bm bp i
      rw [hm] at hne
      rw [except_bind_error]
      simp only [ne_eq, Except.error.injEq] at hne ⊢
      exact hne
    | ok st =>
      rw [except_bind_ok]
      cases hl : streams_loop cc cpr bm bp rest with
      | error e =>
        rw [hl] at ih
        rw [except_bind_error]
        simp only [ne_eq, Except.error.injEq] at ih ⊢
        exact ih
      | ok tail => rw [except_bind_ok, except_pure]; simp

lemma filter_cleanup_set_null (l : List Nat) :
    (l.map Act.pipeline_set_null).filter is_cleanup = l.map Act.pipeline_set_null := by
  induction l with
  | nil => rfl
  | cons a t ih => simp [is_cleanup, ih]

lemma filter_exit_set_null (l : List Nat) :
    (l.map Act.pipeline_set_null).filter is_exit = [] := by
  induction l with
  | nil => rfl
  | cons a t ih => simp [is_exit, ih]

lemma init_ptp_clock_acts (env : Env) (s : SenderState) :
    (init_ptp_clock env s).2.2 = [Act.ptp_init] := by
  cases hi : env.ptp_init_ok <;> cases hc : env.clock_create_ok <;>
    cases hw : env.wait_sync_ok <;> simp [init_ptp_clock, hi, hc, hw]

lemma run_streams_cleanup (env : Env) (l : List StreamDesc) (s : SenderState) :
    (run_streams env l s).2.1.filter is_cleanup = [] := by
  induction l generalizing s with
  | nil => rfl
  | cons st rest ih =>
    simp only [run_streams]
    cases hcp : create_pipeline env st.index with
    | none => simp [is_cleanup]
    | some p =>
      by_cases hs : env.start_ok st.index
      · simp [hs, is_cleanup, ih]
      · simp [hs, is_cleanup]

lemma run_streams_exit (env : Env) (l : List StreamDesc) (s : SenderState) :
    (run_streams env l s).2.1.filter is_exit
      = (if (run_streams env l s).2.2 = true then [] else [Act.exit 1]) := by
  induction l generalizing s with
  | nil => rfl
  | cons st rest ih =>
    simp only [run_streams]
    cases hcp : create_pipeline env st.index with
    | none => simp [is_exit]
    | some p =>
      by_cases hs : env.start_ok st.index
      · simp [hs, is_exit, ih]
      · simp [hs, is_exit]

/-- When every pipeline builds and starts, the loop appends every stream
index to `self.pipelines`, sets each pipeline `PLAYING` in order, and
completes. -/
lemma run_streams_all_ok (env : Env) (l : List StreamDesc) (s : SenderState)
    (hgood : ∀ st ∈ l, env.parse_launch_ok st.index = true ∧ env.start_ok st.index = true) :
    run_streams env l s
      = ({ s with pipelines := s.pipelines ++ l.map StreamDesc.index },
         l.map (fun st => Act.pipeline_set_playing st.index), true) := by
  induction l generalizing s with
  | nil => simp [run_streams]
  | cons st rest ih =>
    obtain ⟨hp1, hs1⟩ := hgood st (List.mem_cons_self st rest)
    have hrest : ∀ x ∈ rest, env.parse_launch_ok x.index = true ∧ env.start_ok x.index = true :=
      fun x hx => hgood x (List.mem_cons_of_mem st hx)
    simp only [run_streams, create_pipeline, hp1, hs1, if_true,
      ih _ hrest, List.map_cons]
    simp [List.append_assoc]

/-- C1: for every `channelCount > 0` and `channelsPerReceiver > 0` (with a
base address whose fourth dotted part is numeric, as any dotted quad has),
`calculate_streams` returns a list of descriptors whose count `L` is
exactly `ceil(channelCount / channelsPerReceiver)` (characterized by
`channelCount ≤ L * channelsPerReceiver` and
`(L - 1) * channelsPerReceiver < channelCount`); descriptor `i` carries
`start_channel = i * channelsPerReceiver + 1` and `port = basePort + i`
and a positive channel count of at most `channelsPerReceiver`; the ranges
are contiguous (each descriptor starts exactly where the previous one
ends) hence non-overlapping, and the channel counts sum to exactly
`channelCount`. -/
theorem calculate_streams_partitions (cc cpr : Int) (bm : String) (bp : Int) (base3 : Int)
    (hcc : 0 < cc) (hcpr : 0 < cpr)
    (hlen : 3 < (split_dot bm).length)
    (hp : py_int ((split_dot bm).get ⟨3, hlen⟩) = some base3) :
    ∃ streams, calculate_streams cc cpr bm bp = .ok streams ∧
      (cc ≤ (streams.length : Int) * cpr ∧ ((streams.length : Int) - 1) * cpr < cc) ∧
      (∀ i, ∀ h : i < streams.length,
        streams[i].index = i ∧
        streams[i].start_channel = (i : Int) * cpr + 1 ∧
        streams[i].port = bp + (i : Int) ∧
        0 < streams[i].channels ∧ streams[i].channels ≤ cpr) ∧
      (∀ i, ∀ h : i + 1 < streams.length,
        streams[i + 1].start_channel = streams[i].start_channel + streams[i].channels) ∧
      (streams.map StreamDesc.channels).sum = cc := by
  obtain ⟨hb1, hb2⟩ := num_streams_bounds cc cpr hcpr
  have hn0 : 0 < Int.fdiv (cc + cpr - 1) cpr := by
    by_contra hcon
    push_neg at hcon
    have h2 : Int.fdiv (cc + cpr - 1) cpr * cpr ≤ 0 * cpr :=
      mul_le_mul_of_nonneg_right hcon (le_of_lt hcpr)
    rw [zero_mul] at h2
    linarith
  have hcast : ((Int.fdiv (cc + cpr - 1) cpr).toNat : Int) = Int.fdiv (cc + cpr - 1) cpr :=
    Int.toNat_of_nonneg (le_of_lt hn0)
  refine ⟨_, calculate_streams_eq cc cpr bm bp base3 (ne_of_gt hcpr) hlen hp, ?_, ?_, ?_, ?_⟩
  · simp only [List.length_map, List.length_range]
    rw [hcast]
    have h3 : (Int.fdiv (cc + cpr - 1) cpr - 1) * cpr
        = Int.fdiv (cc + cpr - 1) cpr * cpr - cpr := by ring
    exact ⟨hb1, by linarith⟩
  · intro i h
    simp only [List.length_map, List.length_range] at h
    have hilt : (i : Int) * cpr < cc :=
      index_mul_lt cc cpr hcpr i (by omega)
    simp only [List.getElem_map, List.getElem_range, stream_desc]
    refine ⟨trivial, trivial, trivial, ?_, ?_⟩
    · rw [sub_pos]
      exact lt_min (by linarith) hilt
    · have h4 := min_le_left ((i : Int) * cpr + cpr) cc
      linarith
  · intro i h
    simp only [List.length_map, List.length_range] at h
    simp only [List.getElem_map, List.getElem_range, stream_desc]
    have hi1 : (i : Int) + 1 ≤ Int.fdiv (cc + cpr - 1) cpr - 1 := by omega
    have h2 : ((i : Int) + 1) * cpr ≤ (Int.fdiv (cc + cpr - 1) cpr - 1) * cpr :=
      mul_le_mul_of_nonneg_right hi1 (le_of_lt hcpr)
    have h3 : (Int.fdiv (cc + cpr - 1) cpr - 1) * cpr
        = Int.fdiv (cc + cpr - 1) cpr * cpr - cpr := by ring
    have h4 : ((i : Int) + 1) * cpr = (i : Int) * cpr + cpr := by ring
    have hle : (i : Int) * cpr + cpr ≤ cc := by linarith
    rw [min_eq_left hle]
    push_cast
    ring
  · rw [List.map_map]
    have hmap : (List.range ((Int.fdiv (cc + cpr - 1) cpr).toNat)).map
          (StreamDesc.channels ∘ stream_desc cc cpr bm bp base3)
        = (List.range ((Int.fdiv (cc + cpr - 1) cpr).toNat)).map
          (fun i => min (((i + 1 : Nat) : Int) * cpr) cc - min (((i : Nat) : Int) * cpr) cc) := by
      refine List.map_congr_left ?_
      intro i hi
      rw [List.mem_range] at hi
      have hilt : (i : Int) * cpr < cc :=
        index_mul_lt cc cpr hcpr i (by omega)
      simp only [Function.comp_apply, stream_desc]
      rw [min_eq_left (le_of_lt hilt)]
      push_cast
      ring_nf
    rw [hmap, sum_map_sub_telescope (fun j => min ((j : Int) * cpr) cc)]
    rw [hcast]
    simp only [Nat.cast_zero, zero_mul]
    rw [min_eq_right hb1, min_eq_left (le_of_lt hcc)]
    ring

/-- Witness for C1 at the specification scenario `channelCount = 16`,
`channelsPerReceiver = 8`, base address `239.1.1.0`, base port `5004`. -/
theorem calculate_streams_partitions_witness :
    (0 : Int) < 16 ∧ (0 : Int) < 8 ∧
    (∃ streams, calculate_streams 16 8 "239.1.1.0" 5004 = .ok streams ∧
      ((16 : Int) ≤ (streams.length : Int) * 8 ∧ ((streams.length : Int) - 1) * 8 < 16) ∧
      (∀ i, ∀ h : i < streams.length,
        streams[i].index = i ∧
        streams[i].start_channel = (i : Int) * 8 + 1 ∧
        streams[i].port = 5004 + (i : Int) ∧
        0 < streams[i].channels ∧ streams[i].channels ≤ 8) ∧
      (∀ i, ∀ h : i + 1 < streams.length,
        streams[i + 1].start_channel = streams[i].start_channel + streams[i].channels) ∧
      (streams.map StreamDesc.channels).sum = 16) := by
  exact ⟨by norm_num, by norm_num,
    calculate_streams_partitions 16 8 "239.1.1.0" 5004 0 (by norm_num) (by norm_num)
      (by decide) (by decide)⟩

/-- Counterexample for C2: from a running sender (one pipeline, main loop
running, clock present), a second invocation of `stop` does not return
immediately: its trace again stops pipeline 0 and releases the clock a
second time. -/
theorem stop_reexecutes_cleanup :
    (stop (stop ⟨[0], true, true⟩).1).2.filter is_cleanup
      = [Act.pipeline_set_null 0, Act.ptp_deinit] ∧
    (stop (stop ⟨[0], true, true⟩).1).2.filter is_cleanup ≠ [] := by decide

/-- C2 amended: `stop` has no stopping flag and is not guarded in any way.
It leaves `self.pipelines` and `self.ptp_clock` unchanged, so invoking it
again after a completed `stop` re-executes the whole stop-all body: every
pipeline is set to `NULL` again and `ptp_deinit` is called a second time
(only the main-loop quit is skipped, the loop no longer running); each
invocation ends in `sys.exit(0)`, which is the only mechanism limiting
re-execution when it actually terminates the process. -/
theorem stop_has_no_stopping_flag (s : SenderState) :
    (stop s).1.pipelines = s.pipelines ∧
    (stop s).1.ptp_clock = s.ptp_clock ∧
    (stop (stop s).1).2.filter is_cleanup
      = s.pipelines.map Act.pipeline_set_null
        ++ (if s.ptp_clock then [Act.ptp_deinit] else []) ∧
    (stop (stop s).1).2.filter is_exit = [Act.exit 0] := by
  refine ⟨rfl, rfl, ?_, ?_⟩ <;>
    cases hc : s.ptp_clock <;>
      simp [stop, List.filter_append, filter_cleanup_set_null, filter_exit_set_null,
        is_cleanup, is_exit, hc]

/-- Counterexample for C3: configuration with two streams, stream 0 starts
and stream 1 fails to start; the trace exits with status 1 without setting
pipeline 0 back to `NULL` and without releasing the clock — no shutdown
sequence is invoked. -/
theorem start_failure_skips_cleanup :
    (start ⟨"sender", 0, 16, 8, "239.1.1.1", 5004, 48000, "aes67"⟩
        ⟨true, true, true, fun _ => true, fun i => i == 0⟩ ⟨[], false, false⟩).2
      = [Act.ptp_init, Act.pipeline_set_playing 0, Act.pipeline_set_playing 1, Act.exit 1] ∧
    Act.pipeline_set_null 0 ∉
      (start ⟨"sender", 0, 16, 8, "239.1.1.1", 5004, 48000, "aes67"⟩
        ⟨true, true, true, fun _ => true, fun i => i == 0⟩ ⟨[], false, false⟩).2 ∧
    Act.ptp_deinit ∉
      (start ⟨"sender", 0, 16, 8, "239.1.1.1", 5004, 48000, "aes67"⟩
        ⟨true, true, true, fun _ => true, fun i => i == 0⟩ ⟨[], false, false⟩).2 := by decide

/-- C3 amended: when starting a pipeline fails, the process exits with the
non-zero status 1, but without invoking the shutdown sequence: on every
input, the trace of `start` contains no pipeline-stop and no clock-release
action at all, and the only exit it can perform is `sys.exit(1)`. -/
theorem start_never_cleans_up (cfg : Config) (env : Env) (s : SenderState) :
    (start cfg env s).2.filter is_cleanup = [] ∧
    ((start cfg env s).2.filter is_exit = []
      ∨ (start cfg env s).2.filter is_exit = [Act.exit 1]) := by
  have hacts := init_ptp_clock_acts env s
  simp only [start]
  by_cases h1 : (init_ptp_clock env s).2.1 = false
  · simp [h1, hacts, is_cleanup, is_exit, List.filter_append]
  · simp only [h1, if_false]
    cases hcalc : calculate_streams_of cfg with
    | error e => simp [hacts, is_cleanup, is_exit, List.filter_append]
    | ok streams =>
      have hcu := run_streams_cleanup env streams (init_ptp_clock env s).1
      have hex := run_streams_exit env streams (init_ptp_clock env s).1
      by_cases h2 : (run_streams env streams (init_ptp_clock env s).1).2.2 = true
      · rw [h2] at hex
        simp [h2, hacts, is_cleanup, is_exit, List.filter_append, hcu, hex]
      · simp only [Bool.not_eq_true] at h2
        rw [h2] at hex
        simp [h2, hacts, is_cleanup, is_exit, List.filter_append, hcu, hex]

/-- Counterexample for C4: a pipeline `Error` event on a running sender
(one pipeline, main loop running, clock present) leads to a process exit
with status 0, not a non-zero status: the only exit action in the trace is
`sys.exit(0)`. -/
theorem error_event_exits_zero :
    (on_bus_message ⟨[0], true, true⟩ MessageType.error).2.filter is_exit = [Act.exit 0] ∧
    ¬ (∃ c, c ≠ 0 ∧
      (on_bus_message ⟨[0], true, true⟩ MessageType.error).2.filter is_exit = [Act.exit c]) := by
  constructor
  · decide
  · rintro ⟨c, hc, he⟩
    have h0 : (on_bus_message ⟨[0], true, true⟩ MessageType.error).2.filter is_exit
        = [Act.exit 0] := by decide
    rw [h0] at he
    simp only [List.cons.injEq, Act.exit.injEq, and_true] at he
    exact hc he.symm

/-- C4 amended: `Error` and `EndOfStream` bus events are handled
identically: both invoke the same `stop`, which performs the full shutdown
cascade (every recorded pipeline is set to `NULL`, in order, and the clock
is released exactly when one is present) and then exits with status 0 in
both cases — the `Error` path does not exit non-zero. -/
theorem bus_events_stop_and_exit_zero (s : SenderState) :
    on_bus_message s MessageType.error = stop s ∧
    on_bus_message s MessageType.eos = stop s ∧
    on_bus_message s MessageType.warning = (s, []) ∧
    (stop s).2.filter is_exit = [Act.exit 0] ∧
    List.Sublist (s.pipelines.map Act.pipeline_set_null) (stop s).2 ∧
    (Act.ptp_deinit ∈ (stop s).2 ↔ s.ptp_clock = true) := by
  refine ⟨rfl, rfl, rfl, ?_, ?_, ?_⟩
  · cases hc : s.ptp_clock <;> cases hm : s.main_loop_running <;>
      simp [stop, List.filter_append, filter_exit_set_null, is_exit, hc, hm]
  · simp only [stop, List.append_assoc]
    exact List.sublist_append_left _ _
  · cases hc : s.ptp_clock <;> cases hm : s.main_loop_running <;>
      simp [stop, hc, hm]

/-- C5 (evaluation at the failing input): with base address `239.1.1.255`
and two streams, descriptor 1 gets multicast address `239.1.1.256`: the
last component is the plain sum `255 + 1 = 256`, which exceeds 255, is not
reduced modulo 256 (that would give `0`), and no `ConfigurationError` is
raised — neither behavior allowed by the claim occurs. -/
theorem calculate_streams_octet_overflow :
    calculate_streams 16 8 "239.1.1.255" 5004
      = .ok [⟨0, "239.1.1.255", 5004, 8, 1⟩, ⟨1, "239.1.1.256", 5005, 8, 9⟩] ∧
    (split_dot "239.1.1.256").get? 3 = some "256" ∧
    py_int "256" = some 256 ∧
    (255 : Int) < 256 ∧
    ((255 : Int) + 1) % 256 = 0 ∧
    toString (((255 : Int) + 1) % 256) = "0" ∧
    "239.1.1.256" ≠ "239.1.1.0" ∧
    calculate_streams 16 8 "239.1.1.255" 5004 ≠ .error .configurationError := by decide

/-- Counterexample for C6: for `channelCount = 0` (and negative counts)
with a positive `channelsPerReceiver`, the partitioner returns the empty
descriptor list instead of failing; for `channelsPerReceiver = 0` it
raises `ZeroDivisionError`, not `ConfigurationError`. -/
theorem no_config_error_on_invalid_inputs :
    calculate_streams 0 2 "239.1.1.1" 5004 = .ok [] ∧
    calculate_streams 0 2 "239.1.1.1" 5004 ≠ .error .configurationError ∧
    calculate_streams (-4) 2 "239.1.1.1" 5004 = .ok [] ∧
    calculate_streams 8 0 "239.1.1.1" 5004 = .error .zeroDivisionError ∧
    PyError.zeroDivisionError ≠ PyError.configurationError := by decide

/-- C6 amended: `calculate_streams` performs no input validation and can
never fail with `ConfigurationError`: for `channelsPerReceiver = 0` it
raises `ZeroDivisionError`; for `channelCount ≤ 0` with
`channelsPerReceiver ≥ 1` it silently returns the empty list. -/
theorem calculate_streams_no_validation (cc cpr : Int) (bm : String) (bp : Int) :
    calculate_streams cc 0 bm bp = .error .zeroDivisionError ∧
    (cc ≤ 0 → 1 ≤ cpr → calculate_streams cc cpr bm bp = .ok []) ∧
    calculate_streams cc cpr bm bp ≠ .error .configurationError := by
  refine ⟨by simp [calculate_streams], ?_, ?_⟩
  · intro h1 h2
    have hne : ¬ cpr = 0 := by omega
    have hlt : (cc + cpr - 1) / cpr < 1 := by
      rw [Int.ediv_lt_iff_lt_mul (by omega : (0 : Int) < cpr)]
      omega
    have hnum : (Int.fdiv (cc + cpr - 1) cpr).toNat = 0 := by
      rw [Int.fdiv_eq_ediv _ (by omega : (0 : Int) ≤ cpr)]
      omega
    simp only [calculate_streams, if_neg hne, hnum, List.range_zero]
    rfl
  · by_cases hc : cpr = 0
    · subst hc
      simp [calculate_streams]
    · simp only [calculate_streams, if_neg hc]
      exact streams_loop_not_config cc cpr bm bp _

/-- Witness for C6 amended at `channelCount = -3`. -/
theorem calculate_streams_no_validation_witness :
    calculate_streams (-3) 0 "239.1.1.1" 5004 = .error .zeroDivisionError ∧
    calculate_streams (-3) 2 "239.1.1.1" 5004 = .ok [] ∧
    calculate_streams (-3) 2 "239.1.1.1" 5004 ≠ .error .configurationError :=
  ⟨(calculate_streams_no_validation (-3) 2 "239.1.1.1" 5004).1,
    (calculate_streams_no_validation (-3) 2 "239.1.1.1" 5004).2.1 (by norm_num) (by norm_num),
    (calculate_streams_no_validation (-3) 2 "239.1.1.1" 5004).2.2⟩

/-- C8: a configuration whose `deviceMode` is not `"sender"` makes
`load_config` raise (the `ValueError` configuration error of line 50,
uncaught by the handlers of lines 53-58), the process terminates with exit
code 1, and no PTP clock initialization is ever attempted. -/
theorem non_sender_mode_rejected (raw : Config) (env : Env)
    (h : raw.deviceMode ≠ "sender") :
    load_config raw = .error .valueError ∧
    run_main raw env = [Act.exit 1] ∧
    Act.ptp_init ∉ run_main raw env := by
  have hl : load_config raw = .error .valueError := by simp [load_config, h]
  refine ⟨hl, ?_, ?_⟩ <;> simp [run_main, hl]

/-- Witness for C8 with `deviceMode = "receiver"`. -/
theorem non_sender_mode_rejected_witness :
    load_config ⟨"receiver", 0, 16, 8, "239.1.1.1", 5004, 48000, "aes67"⟩
      = .error .valueError ∧
    run_main ⟨"receiver", 0, 16, 8, "239.1.1.1", 5004, 48000, "aes67"⟩
      ⟨true, true, true, fun _ => true, fun _ => true⟩ = [Act.exit 1] ∧
    Act.ptp_init ∉ run_main ⟨"receiver", 0, 16, 8, "239.1.1.1", 5004, 48000, "aes67"⟩
      ⟨true, true, true, fun _ => true, fun _ => true⟩ :=
  non_sender_mode_rejected _ _ (by decide)

/-- C9: the partitioner is deterministic and reads nothing beyond the four
configuration values `channelCount`, `channelsPerReceiver`,
`baseMulticastAddress` and `rtpDestinationPort`: any two configurations
agreeing on those four produce identical descriptor lists (in the
embedding the function is pure, so two calls on equal inputs are literally
the same value). -/
theorem calculate_streams_deterministic (c1 c2 : Config)
    (h1 : c1.channelCount = c2.channelCount)
    (h2 : c1.channelsPerReceiver = c2.channelsPerReceiver)
    (h3 : c1.baseMulticastAddress = c2.baseMulticastAddress)
    (h4 : c1.rtpDestinationPort = c2.rtpDestinationPort) :
    calculate_streams_of c1 = calculate_streams_of c2 := by
  unfold calculate_streams_of
  rw [h1, h2, h3, h4]

/-- Witness for C9: two configurations differing in `ptpDomain`,
`samplingRate` and `jackClientName` yield identical partitions. -/
theorem calculate_streams_deterministic_witness :
    (⟨"sender", 0, 16, 8, "239.1.1.1", 5004, 48000, "aes67"⟩ : Config)
      ≠ ⟨"sender", 1, 16, 8, "239.1.1.1", 5004, 96000, "other"⟩ ∧
    calculate_streams_of ⟨"sender", 0, 16, 8, "239.1.1.1", 5004, 48000, "aes67"⟩
      = calculate_streams_of ⟨"sender", 1, 16, 8, "239.1.1.1", 5004, 96000, "other"⟩ :=
  ⟨by decide, calculate_streams_deterministic _ _ rfl rfl rfl rfl⟩

/-- C7: a clock-sync timeout is non-fatal.  `init_ptp_clock` returns
`True` in the timeout branch exactly as in the synced branch, so `start`
behaves identically whether `wait_for_sync` succeeded or timed out: the
resulting state and trace are equal, the channels are partitioned, every
pipeline is built and set `PLAYING`, and the main loop is entered. -/
theorem sync_timeout_nonfatal (cfg : Config) (env : Env) (s : SenderState)
    (streams : List StreamDesc)
    (hinit : env.ptp_init_ok = true) (hclk : env.clock_create_ok = true)
    (hcalc : calculate_streams_of cfg = .ok streams)
    (hgood : ∀ st ∈ streams,
      env.parse_launch_ok st.index = true ∧ env.start_ok st.index = true) :
    start cfg { env with wait_sync_ok := false } s
      = start cfg { env with wait_sync_ok := true } s ∧
    (∀ st ∈ streams, Act.pipeline_set_playing st.index ∈
      (start cfg { env with wait_sync_ok := false } s).2) ∧
    (start cfg { env with wait_sync_ok := false } s).1.main_loop_running = true := by
  have hi1 : init_ptp_clock { env with wait_sync_ok := false } s
      = ({ s with ptp_clock := true }, true, [Act.ptp_init]) := by
    simp [init_ptp_clock, hinit, hclk]
  have hi2 : init_ptp_clock { env with wait_sync_ok := true } s
      = ({ s with ptp_clock := true }, true, [Act.ptp_init]) := by
    simp [init_ptp_clock, hinit, hclk]
  have hrunF := run_streams_all_ok { env with wait_sync_ok := false } streams
    { s with ptp_clock := true } hgood
  have hrunT := run_streams_all_ok { env with wait_sync_ok := true } streams
    { s with ptp_clock := true } hgood
  refine ⟨?_, ?_, ?_⟩
  · simp only [start, hi1, hi2, hcalc, hrunF, hrunT]
  · intro st hst
    simp only [start, hi1, hcalc, hrunF]
    simp only [Bool.true_eq_false, if_false, if_true, reduceIte, List.mem_cons,
      List.mem_append]
    right
    exact List.mem_map_of_mem _ hst
  · simp only [start, hi1, hcalc, hrunF]
    rfl

/-- Witness for C7: two streams, all pipelines build and start; the traces
with and without clock sync agree and both pipelines are set playing. -/
theorem sync_timeout_nonfatal_witness :
    (start ⟨"sender", 0, 16, 8, "239.1.1.1", 5004, 48000, "aes67"⟩
        ⟨true, true, false, fun _ => true, fun _ => true⟩ ⟨[], false, false⟩
      = start ⟨"sender", 0, 16, 8, "239.1.1.1", 5004, 48000, "aes67"⟩
        ⟨true, true, true, fun _ => true, fun _ => true⟩ ⟨[], false, false⟩) ∧
    (∀ st ∈ [(⟨0, "239.1.1.1", 5004, 8, 1⟩ : StreamDesc), ⟨1, "239.1.1.2", 5005, 8, 9⟩],
      Act.pipeline_set_playing st.index ∈
        (start ⟨"sender", 0, 16, 8, "239.1.1.1", 5004, 48000, "aes67"⟩
          ⟨true, true, false, fun _ => true, fun _ => true⟩ ⟨[], false, false⟩).2) ∧
    (start ⟨"sender", 0, 16, 8, "239.1.1.1", 5004, 48000, "aes67"⟩
      ⟨true, true, false, fun _ => true, fun _ => true⟩
      ⟨[], false, false⟩).1.main_loop_running = true :=
  sync_timeout_nonfatal ⟨"sender", 0, 16, 8, "239.1.1.1", 5004, 48000, "aes67"⟩
    ⟨true, true, true, fun _ => true, fun _ => true⟩ ⟨[], false, false⟩
    [⟨0, "239.1.1.1", 5004, 8, 1⟩, ⟨1, "239.1.1.2", 5005, 8, 9⟩]
    rfl rfl (by decide) (by decide)

/-- C10: with `channelsPerReceiver ≥ 1` and a base address splitting into
at least four parts whose part 3 parses as an integer `base3`,
`calculate_streams` returns (no exception) for every integer
`channelCount`; for `channelCount ≤ 0` it returns the empty list rather
than signalling an error, and descriptor `i` carries the address whose
part 3 is the decimal string of `base3 + i` with no bound check, so past
255 the component simply exceeds 255. -/
theorem calculate_streams_total_without_guards (cpr : Int) (bm : String) (bp : Int)
    (base3 : Int) (cc : Int)
    (hcpr : 1 ≤ cpr)
    (hlen : 3 < (split_dot bm).length)
    (hp : py_int ((split_dot bm).get ⟨3, hlen⟩) = some base3) :
    ∃ l, calculate_streams cc cpr bm bp = .ok l ∧
      (cc ≤ 0 → l = []) ∧
      ∀ i, ∀ h : i < l.length,
        l[i].multicast = join_dot ((split_dot bm).set 3 (toString (base3 + (i : Int)))) := by
  refine ⟨_, calculate_streams_eq cc cpr bm bp base3 (by omega) hlen hp, ?_, ?_⟩
  · intro hcc
    have hlt : (cc + cpr - 1) / cpr < 1 := by
      rw [Int.ediv_lt_iff_lt_mul (by omega : (0 : Int) < cpr)]
      omega
    have hnum : (Int.fdiv (cc + cpr - 1) cpr).toNat = 0 := by
      rw [Int.fdiv_eq_ediv _ (by omega : (0 : Int) ≤ cpr)]
      omega
    simp [hnum]
  · intro i h
    simp only [List.getElem_map, List.getElem_range, stream_desc]

/-- Witness for C10 at `channelCount = 88`, `channelsPerReceiver = 8`,
base address `239.1.1.250`: 11 streams; descriptor 10 would get last
component `260 > 255`. -/
theorem calculate_streams_total_without_guards_witness :
    (∃ l, calculate_streams 88 8 "239.1.1.250" 5004 = .ok l ∧
      ((88 : Int) ≤ 0 → l = []) ∧
      ∀ i, ∀ h : i < l.length,
        l[i].multicast
          = join_dot ((split_dot "239.1.1.250").set 3 (toString ((250 : Int) + (i : Int))))) ∧
    join_dot ((split_dot "239.1.1.250").set 3 (toString ((250 : Int) + ((10 : Nat) : Int))))
      = "239.1.1.260" ∧
    (split_dot "239.1.1.260").get? 3 = some "260" ∧
    py_int "260" = some 260 ∧
    (255 : Int) < 260 := by
  refine ⟨calculate_streams_total_without_guards 8 "239.1.1.250" 5004 250 88
    (by norm_num) (by decide) (by decide), ?_, ?_, ?_, ?_⟩ <;> decide
